import Mathlib

/-!
Verification development for `tea5767.py`, a register-level driver for the
TEA5767 FM radio module.

The Python class `tea5767` is embedded shallowly:

* the instance attributes become the fields of the structure `Tea5767`
  (Python integers are modelled as `ℕ`, the station frequency — a Python
  float that always carries an exact decimal value in this program — is
  modelled as an exact rational `ℚ`);
* methods become state-passing functions;
* the I2C bus transport is an explicit oracle: `writeBytes` returns the
  five bytes it would put on the bus, `readBytesWith` takes the five bytes
  a read transaction returns;
* the unbounded `while` loops of `search` and `scan` take explicit fuel and
  return `none` when the fuel is exhausted before the loop exits.

Python's `int(x)` (truncation toward zero) and `round(x)` (nearest integer,
ties to even) are modelled exactly on `ℚ` by `pyInt` and `pyRound`.
-/

/-- Python `int(q)`: truncation toward zero. -/
def pyInt (q : ℚ) : ℤ := if 0 ≤ q then ⌊q⌋ else ⌈q⌉

/-- Python `round(q)`: nearest integer, ties go to the even neighbour. -/
def pyRound (q : ℚ) : ℤ :=
  let n := ⌊q⌋
  if q - n < 1/2 then n
  else if 1/2 < q - n then n + 1
  else if n % 2 = 0 then n else n + 1

/-- The mutable state of a `tea5767` instance: every attribute assigned in
`__init__` (lines 56–123 of `tea5767.py`). -/
structure Tea5767 where
  address : ℕ
  crystalOscillatorFrequency : ℕ
  FMstation : ℚ
  numReadBytes : ℕ
  numWriteBytes : ℕ
  mute : ℕ
  searchMode : ℕ
  SUD : ℕ
  searchStopLevel : ℕ
  HLSI : ℕ
  mono : ℕ
  muteRight : ℕ
  muteLeft : ℕ
  SWP1 : ℕ
  SWP2 : ℕ
  standby : ℕ
  bandLimits : ℕ
  XTAL : ℕ
  softMute : ℕ
  HCC : ℕ
  SNC : ℕ
  SI : ℕ
  PLL : ℕ
  DTC : ℕ
  readyFlag : ℕ
  bandLimitFlag : ℕ
  upperFrequencyByte : ℕ
  lowerFrequencyByte : ℕ
  stereoFlag : ℕ
  IFcounter : ℕ
  levelADCoutput : ℕ
  chipID : ℕ
deriving DecidableEq

/-- The field values assigned by `__init__` before it calls `readBytes`;
`XTAL` and `PLL` are derived from the crystal frequency exactly as in the
source (`1 if crystal == 32768 else 0`, `1 if crystal == 6500000 else 0`). -/
def mkFields (crystal : ℕ) : Tea5767 where
  address := 0x60
  crystalOscillatorFrequency := crystal
  FMstation := 88.1
  numReadBytes := 5
  numWriteBytes := 5
  mute := 1
  searchMode := 0
  SUD := 1
  searchStopLevel := 1
  HLSI := 1
  mono := 0
  muteRight := 0
  muteLeft := 0
  SWP1 := 0
  SWP2 := 0
  standby := 0
  bandLimits := 0
  XTAL := if crystal = 32768 then 1 else 0
  softMute := 0
  HCC := 0
  SNC := 0
  SI := 0
  PLL := if crystal = 6500000 then 1 else 0
  DTC := 0
  readyFlag := 0
  bandLimitFlag := 0
  upperFrequencyByte := 0x00
  lowerFrequencyByte := 0x00
  stereoFlag := 0
  IFcounter := 0x00
  levelADCoutput := 0x00
  chipID := 0x00

/-- `calculateByteFrequency` (lines 202–208):
`frequency = int(4 * (FMstation * 1000000 + 225000) / crystal)`, then
`upperFrequencyByte = frequency >> 8`, `lowerFrequencyByte = frequency & 0xFF`.
The value is nonnegative for every station the driver handles, so the
Python integer is recorded as a `ℕ` via `Int.toNat`. -/
def calculateByteFrequency (s : Tea5767) : Tea5767 :=
  let frequency : ℕ :=
    (pyInt (4 * (s.FMstation * 1000000 + 225000) /
      (s.crystalOscillatorFrequency : ℚ))).toNat
  { s with upperFrequencyByte := frequency >>> 8
           lowerFrequencyByte := frequency &&& 0xFF }

/-- `calculateFrequency` (lines 210–219): reconstructs the register from the
two bytes and recovers the station with the source's ad-hoc formula
`round((float(round(int(frequency*crystal/4-22500)/100000)/10)-.2)*10)/10`. -/
def calculateFrequency (s : Tea5767) : Tea5767 :=
  let frequency : ℕ := (s.upperFrequencyByte <<< 8) + s.lowerFrequencyByte
  let c : ℚ := (s.crystalOscillatorFrequency : ℚ)
  { s with FMstation :=
      (pyRound (((pyRound ((pyInt ((frequency : ℚ) * c / 4 - 22500) : ℚ) /
        100000) : ℚ) / 10 - 0.2) * 10) : ℚ) / 10 }

/-- The byte-packing part of `writeBytes` (lines 160–195): each Python
statement `b = b + k if field == 1 else b` becomes a conditional rebinding. -/
def encodeBytes (s : Tea5767) : List ℕ :=
  let byteOne := 0x00
  let byteOne := if s.mute = 1 then byteOne + 0x80 else byteOne
  let byteOne := if s.searchMode = 1 then byteOne + 0x40 else byteOne
  let byteOne := byteOne + s.upperFrequencyByte
  let byteTwo := s.lowerFrequencyByte
  let byteThree := 0x00
  let byteThree := if s.SUD = 1 then byteThree + 0x80 else byteThree
  let byteThree := byteThree + (s.searchStopLevel <<< 5)
  let byteThree := if s.HLSI = 1 then byteThree + 0x10 else byteThree
  let byteThree := if s.mono = 1 then byteThree + 0x08 else byteThree
  let byteThree := if s.muteRight = 1 then byteThree + 0x04 else byteThree
  let byteThree := if s.muteLeft = 1 then byteThree + 0x02 else byteThree
  let byteThree := if s.SWP1 = 1 then byteThree + 0x01 else byteThree
  let byteFour := 0x00
  let byteFour := if s.SWP2 = 1 then byteFour + 0x80 else byteFour
  let byteFour := if s.standby = 1 then byteFour + 0x40 else byteFour
  let byteFour := if s.bandLimits = 1 then byteFour + 0x20 else byteFour
  let byteFour := if s.XTAL = 1 then byteFour + 0x10 else byteFour
  let byteFour := if s.softMute = 1 then byteFour + 0x08 else byteFour
  let byteFour := if s.HCC = 1 then byteFour + 0x04 else byteFour
  let byteFour := if s.SNC = 1 then byteFour + 0x02 else byteFour
  let byteFour := if s.SI = 1 then byteFour + 0x01 else byteFour
  let byteFive := 0x00
  let byteFive := if s.PLL = 1 then byteFive + 0x80 else byteFive
  let byteFive := if s.DTC = 1 then byteFive + 0x40 else byteFive
  [byteOne, byteTwo, byteThree, byteFour, byteFive]

/-- `writeBytes` (lines 154–200): recompute the frequency bytes, then put the
five packed bytes on the bus.  The written bytes are returned explicitly. -/
def writeBytes (s : Tea5767) : Tea5767 × List ℕ :=
  let s := calculateByteFrequency s
  (s, encodeBytes s)

/-- One 5-byte read transaction result. -/
structure Bytes5 where
  b0 : ℕ
  b1 : ℕ
  b2 : ℕ
  b3 : ℕ
  b4 : ℕ
deriving DecidableEq

/-- `readBytes` (lines 128–152) with the transaction result made explicit:
decodes the five status bytes and then calls `calculateFrequency`.  The
fifth byte is unused on the TEA5767, exactly as in the source. -/
def readBytesWith (s : Tea5767) (r : Bytes5) : Tea5767 :=
  calculateFrequency
    { s with readyFlag := if r.b0 &&& 0x80 ≠ 0 then 1 else 0
             bandLimitFlag := if r.b0 &&& 0x40 ≠ 0 then 1 else 0
             upperFrequencyByte := r.b0 &&& 0x3F
             lowerFrequencyByte := r.b1
             stereoFlag := if r.b2 &&& 0x80 ≠ 0 then 1 else 0
             IFcounter := r.b2 &&& 0x7F
             levelADCoutput := r.b3 >>> 4
             chipID := r.b3 &&& 0x0E }

/-- `__init__` (lines 56–126): default fields, one read transaction (whose
result is the oracle argument), then `calculateByteFrequency`. -/
def tea5767Init (r : Bytes5) : Tea5767 :=
  calculateByteFrequency (readBytesWith (mkFields 32768) r)

/-- The frequency-to-register conversion performed by
`calculateByteFrequency`, as a pure function of the station and the crystal
frequency. -/
def toRegister (f : ℚ) (crystal : ℕ) : ℕ :=
  (pyInt (4 * (f * 1000000 + 225000) / (crystal : ℚ))).toNat

/-- The register-to-frequency conversion performed by `calculateFrequency`,
as a pure function of the reconstructed register and the crystal frequency. -/
def fromRegister (reg : ℕ) (crystal : ℕ) : ℚ :=
  (pyRound (((pyRound ((pyInt ((reg : ℚ) * (crystal : ℚ) / 4 - 22500) : ℚ) /
    100000) : ℚ) / 10 - 0.2) * 10) : ℚ) / 10

/-- The `search` polling loop (lines 317–327): while `readyFlag` is falsy,
read the device (the `device` oracle gives the result of the `k`-th read
transaction), and bail out with `False` once the decoded station leaves the
band.  `fuel` bounds the number of iterations of the otherwise unbounded
`while`; `none` means the fuel ran out before the loop exited.  The bytes of
every write transaction are accumulated in `writes`. -/
def searchLoop (device : ℕ → Bytes5) (fuel : ℕ) (k : ℕ) (s : Tea5767)
    (writes : List (List ℕ)) : Option (Tea5767 × Bool × List (List ℕ)) :=
  match fuel with
  | 0 => none
  | fuel + 1 =>
    if s.readyFlag ≠ 0 then
      let s := { s with searchMode := 0, mute := 0 }
      let sw := writeBytes s
      some (sw.1, true, writes ++ [sw.2])
    else
      let s := readBytesWith s (device k)
      if s.FMstation < 87.5 ∨ 107.9 < s.FMstation then
        let s := { s with searchMode := 0 }
        let sw := writeBytes s
        some (sw.1, false, writes ++ [sw.2])
      else
        searchLoop device fuel (k + 1) s writes

/-- `search` (lines 308–334): arm the hardware search (`readyFlag := 0`,
`mute := 1`, `searchMode := 1`, `SUD := dir`), write once, then poll. -/
def search (device : ℕ → Bytes5) (fuel : ℕ) (dir : ℕ) (s : Tea5767) :
    Option (Tea5767 × Bool × List (List ℕ)) :=
  let s := { s with readyFlag := 0, mute := 1, searchMode := 1, SUD := dir }
  let sw := writeBytes s
  searchLoop device fuel 0 sw.1 [sw.2]

/-- Result of a `scan` run: the final state, the recorded strong stations
`(FMstation, stereoFlag, levelADCoutput)` in the order they were written to
`telek.txt`, and the trace of write transactions, each paired with the
station the device was tuned to by that write. -/
structure ScanResult where
  state : Tea5767
  stations : List (ℚ × ℕ × ℕ)
  writes : List (ℚ × List ℕ)
deriving DecidableEq

/-- The `scan` sweep loop (lines 261–296): step the station by `fadd`, reset
to the opposite edge and set the exit flag `i` when a band edge is crossed,
tune (write), read the status through the `dev` oracle (which maps the five
bytes last written to the five bytes a read returns), and record the station
when `levelADCoutput > 4`.  The loop condition `while i == False` is tested
at the top, so the iteration that crosses the edge still runs in full. -/
def scanLoop (dev : List ℕ → Bytes5) (fuel : ℕ) (s : Tea5767) (fadd : ℚ)
    (stations : List (ℚ × ℕ × ℕ)) (writes : List (ℚ × List ℕ)) :
    Option ScanResult :=
  match fuel with
  | 0 => none
  | fuel + 1 =>
    let s := { s with FMstation := s.FMstation + fadd }
    let si :=
      if s.FMstation < 87.5 then ({ s with FMstation := 108 }, true)
      else if 107.9 < s.FMstation then ({ s with FMstation := 87.5 }, true)
      else (s, false)
    let s := calculateByteFrequency si.1
    let sw := writeBytes s
    let writes := writes ++ [(sw.1.FMstation, sw.2)]
    let s := readBytesWith sw.1 (dev sw.2)
    let s := calculateByteFrequency s
    let s := calculateFrequency s
    let stations :=
      if 4 < s.levelADCoutput then
        stations ++ [(s.FMstation, s.stereoFlag, s.levelADCoutput)]
      else stations
    if si.2 then some ⟨s, stations, writes⟩
    else scanLoop dev fuel s fadd stations writes

/-- `scan` (lines 244–299): initial read, then sweep up from 87.5 when
`direction == 1`, else down from 107.9.  The pre-loop read transaction is
`dev []` (nothing has been written yet). -/
def scan (dev : List ℕ → Bytes5) (fuel : ℕ) (direction : ℕ) (s : Tea5767) :
    Option ScanResult :=
  let s := readBytesWith s (dev [])
  let s := calculateByteFrequency s
  if direction = 1 then
    scanLoop dev fuel { s with FMstation := 87.5 } 0.1 [] []
  else
    scanLoop dev fuel { s with FMstation := 107.9 } (-0.1) [] []

/-- A simulated transport that never reports `ready` (all status bytes 0). -/
def silentDevice : ℕ → Bytes5 := fun _ => ⟨0, 0, 0, 0, 0⟩

/-- A simulated transport for `scan`: reads echo the frequency register last
written (so the decoded station tracks the tuned station), never report
`ready`, and report `levelADCoutput = 5` exactly when the tuned register is
the register of 90.0 MHz or of 100.0 MHz (at the driver's 32768 Hz crystal),
and 0 at every other register. -/
def scanDevice (w : List ℕ) : Bytes5 :=
  let b0 := (w.getD 0 0) &&& 0x3F
  let b1 := w.getD 1 0
  let reg := (b0 <<< 8) + b1
  let lvl :=
    if reg = toRegister 90.0 32768 ∨ reg = toRegister 100.0 32768 then 5 else 0
  ⟨b0, b1, 0, lvl <<< 4, 0⟩

/-- The tail of one `scan` loop pass (lines 273–288) once the station has
been set to `fq`: tune-write at `fq`, read the status through `dev`,
recompute the frequency bytes and the station, and record the station when
`levelADCoutput > 4`.  This names the iteration that `scan` still executes
in full after a band-edge reset, where `fq` is the reset value. -/
def scanIterationAt (dev : List ℕ → Bytes5) (s : Tea5767) (fq : ℚ)
    (stations : List (ℚ × ℕ × ℕ)) (writes : List (ℚ × List ℕ)) :
    ScanResult :=
  let sc := calculateByteFrequency { s with FMstation := fq }
  let sw := writeBytes sc
  let writes := writes ++ [(sw.1.FMstation, sw.2)]
  let s2 := readBytesWith sw.1 (dev sw.2)
  let s2 := calculateByteFrequency s2
  let s2 := calculateFrequency s2
  let stations :=
    if 4 < s2.levelADCoutput then
      stations ++ [(s2.FMstation, s2.stereoFlag, s2.levelADCoutput)]
    else stations
  ⟨s2, stations, writes⟩

inductive DomainError where
  | FrequencyOutOfBand
deriving DecidableEq

/-- Modelled from the spec: the Tuner Controller operation
`tune(frequencyMHz)` is absent from the source (`tea5767.py` has no method
that validates a requested station); per spec §4.3 and §7 it "validates
range (87.5–107.9), updates config via Frequency Converter, writes", and a
value outside the band is "rejected before any transport call; no partial
writes occur", failing with `DomainError::FrequencyOutOfBand`.  The success
path reuses the source's `writeBytes`. -/
def tune (s : Tea5767) (f : ℚ) : Except DomainError (Tea5767 × List ℕ) :=
  if f < 87.5 ∨ 107.9 < f then .error .FrequencyOutOfBand
  else .ok (writeBytes { s with FMstation := f })

/-- A Python attribute value, as far as the `mute` collision is concerned:
either a data value stored in the instance dictionary or a bound method
found on the class. -/
inductive PyValue where
  | intVal (n : ℕ)
  | ratVal (q : ℚ)
  | methodVal (m : String)
deriving DecidableEq

/-- The instance attributes a constructed `tea5767` object carries, in
`__init__` assignment order (lines 60–118), with their initial values. -/
def tea5767InstanceAttrs : List (String × PyValue) :=
  [("address", .intVal 0x60),
   ("crystalOscillatorFrequency", .intVal 32768),
   ("FMstation", .ratVal 88.1),
   ("numReadBytes", .intVal 5),
   ("numWriteBytes", .intVal 5),
   ("mute", .intVal 1),
   ("searchMode", .intVal 0),
   ("SUD", .intVal 1),
   ("searchStopLevel", .intVal 1),
   ("HLSI", .intVal 1),
   ("mono", .intVal 0),
   ("muteRight", .intVal 0),
   ("muteLeft", .intVal 0),
   ("SWP1", .intVal 0),
   ("SWP2", .intVal 0),
   ("standby", .intVal 0),
   ("bandLimits", .intVal 0),
   ("XTAL", .intVal 1),
   ("softMute", .intVal 0),
   ("HCC", .intVal 0),
   ("SNC", .intVal 0),
   ("SI", .intVal 0),
   ("PLL", .intVal 0),
   ("DTC", .intVal 0),
   ("readyFlag", .intVal 0),
   ("bandLimitFlag", .intVal 0),
   ("upperFrequencyByte", .intVal 0),
   ("lowerFrequencyByte", .intVal 0),
   ("stereoFlag", .intVal 0),
   ("IFcounter", .intVal 0),
   ("levelADCoutput", .intVal 0),
   ("chipID", .intVal 0)]

/-- The methods defined on the `tea5767` class, in source order. -/
def tea5767ClassMethods : List String :=
  ["__init__", "readBytes", "writeBytes", "calculateByteFrequency",
   "calculateFrequency", "getTuned", "scan", "off", "search", "on",
   "mute", "display", "start"]

/-- Python attribute lookup on a constructed instance: the instance
dictionary shadows plain functions found on the class. -/
def pyGetattr (name : String) : Option PyValue :=
  match tea5767InstanceAttrs.find? (fun p => p.1 = name) with
  | some p => some p.2
  | none =>
    if name ∈ tea5767ClassMethods then some (.methodVal name) else none

/-- Calling `radio.<name>()` succeeds only when the looked-up attribute is a
method; calling an integer raises `TypeError` in Python. -/
def pyCallSucceeds (name : String) : Bool :=
  match pyGetattr name with
  | some (.methodVal _) => true
  | _ => false

/-- The spec's frequency-to-register formula, following its words:
`round(4 * (frequencyMHz*1e6 + 225000) / crystalHz)`.  This is a second,
spec-side definition kept to compare with `toRegister`, which is translated
from the source and truncates with `int(...)` instead of rounding. -/
def toRegisterSpecRound (f : ℚ) (crystal : ℕ) : ℕ :=
  (pyRound (4 * (f * 1000000 + 225000) / (crystal : ℚ))).toNat

/-- The field ranges under which the bit-layout claim is stated: every
one-bit field carries 0 or 1, the search-stop level fits its two bits, and
the two frequency bytes fit 6 and 8 bits respectively. -/
def validConfig (s : Tea5767) : Prop :=
  s.mute ≤ 1 ∧ s.searchMode ≤ 1 ∧ s.upperFrequencyByte < 64 ∧
  s.lowerFrequencyByte < 256 ∧ s.SUD ≤ 1 ∧ s.searchStopLevel ≤ 3 ∧
  s.HLSI ≤ 1 ∧ s.mono ≤ 1 ∧ s.muteRight ≤ 1 ∧ s.muteLeft ≤ 1 ∧ s.SWP1 ≤ 1 ∧
  s.SWP2 ≤ 1 ∧ s.standby ≤ 1 ∧ s.bandLimits ≤ 1 ∧ s.XTAL ≤ 1 ∧
  s.softMute ≤ 1 ∧ s.HCC ≤ 1 ∧ s.SNC ≤ 1 ∧ s.SI ≤ 1 ∧ s.PLL ≤ 1 ∧ s.DTC ≤ 1

instance (s : Tea5767) : Decidable (validConfig s) := by
  unfold validConfig; infer_instance

/-- A configuration with every boolean field false, `mute` true, and both
frequency bytes zero (the spec's first bit-layout test vector). -/
def cfgAllFalseMute : Tea5767 :=
  { mkFields 32768 with
    mute := 1, searchMode := 0, SUD := 0, searchStopLevel := 0, HLSI := 0,
    XTAL := 0, upperFrequencyByte := 0, lowerFrequencyByte := 0 }

/-- The spec's second bit-layout test vector: `mute = 1`, `searchMode = 1`,
`upperFrequencyByte = 0x12`. -/
def cfgMuteSearchUpper12 : Tea5767 :=
  { cfgAllFalseMute with searchMode := 1, upperFrequencyByte := 0x12 }

/-- A freshly constructed radio (read transaction of all zeros), as the
search and scan scenarios start from. -/
def freshRadio : Tea5767 := tea5767Init ⟨0, 0, 0, 0, 0⟩

/-- The search scenario's start state: a fresh radio tuned to 107.8 MHz. -/
def searchStart1078 : Tea5767 := { freshRadio with FMstation := 107.8 }

/-! ### General lemmas about the embedded arithmetic -/

theorem pyInt_intCast (k : ℤ) : pyInt (k : ℚ) = k := by
  unfold pyInt
  split <;> simp

theorem pyInt_eq_floor (q : ℚ) (h : 0 ≤ q) : pyInt q = ⌊q⌋ := if_pos h

theorem pyRound_eq (m : ℤ) (q : ℚ) (h1 : (m : ℚ) - 1/2 < q)
    (h2 : q < (m : ℚ) + 1/2) : pyRound q = m := by
  have hub : ⌊q⌋ ≤ m := by
    have : ⌊q⌋ < m + 1 := Int.floor_lt.mpr (by push_cast; linarith)
    omega
  have hlb : m - 1 ≤ ⌊q⌋ := Int.le_floor.mpr (by push_cast; linarith)
  have hfl : ⌊q⌋ = m - 1 ∨ ⌊q⌋ = m := by omega
  simp only [pyRound]
  rcases hfl with h | h
  · rw [h]
    have hf := Int.floor_le q
    rw [h] at hf
    have hr : ¬(q - ((m - 1 : ℤ) : ℚ) < 1/2) := by push_cast; linarith
    have hr2 : (1/2 : ℚ) < q - ((m - 1 : ℤ) : ℚ) := by push_cast; linarith
    rw [if_neg hr, if_pos hr2]
    omega
  · rw [h]
    have hr : q - (m : ℚ) < 1/2 := by linarith
    rw [if_pos hr]

theorem pyRound_intCast (k : ℤ) : pyRound (k : ℚ) = k :=
  pyRound_eq k _ (by linarith) (by linarith)

theorem floor_natCast_div (a b : ℕ) :
    ⌊(a : ℚ) / (b : ℚ)⌋ = ((a / b : ℕ) : ℤ) := by
  rcases Nat.eq_zero_or_pos b with hb | hb
  · subst hb; simp
  · have hb' : (0 : ℚ) < (b : ℚ) := by exact_mod_cast hb
    rw [Int.floor_eq_iff]
    constructor
    · rw [le_div_iff₀ hb']
      exact_mod_cast Nat.div_mul_le_self a b
    · rw [div_lt_iff₀ hb']
      have h := Nat.lt_mul_div_succ a hb
      rw [Nat.mul_comm] at h
      exact_mod_cast h

theorem shift_mask_reconstruct (t : ℕ) :
    ((t >>> 8) <<< 8) + (t &&& 0xFF) = t := by
  have h1 : t >>> 8 = t / 2 ^ 8 := Nat.shiftRight_eq_div_pow t 8
  have h2 : (t / 2 ^ 8) <<< 8 = t / 2 ^ 8 * 2 ^ 8 := Nat.shiftLeft_eq _ 8
  have h3 : t &&& 0xFF = t % 2 ^ 8 := Nat.and_pow_two_sub_one_eq_mod t 8
  rw [h1, h2, h3]
  have := Nat.div_add_mod t (2 ^ 8)
  omega

theorem calculateByteFrequency_eq (s : Tea5767) :
    calculateByteFrequency s =
      { s with
        upperFrequencyByte :=
          toRegister s.FMstation s.crystalOscillatorFrequency >>> 8
        lowerFrequencyByte :=
          toRegister s.FMstation s.crystalOscillatorFrequency &&& 0xFF } := rfl

theorem calculateFrequency_eq (s : Tea5767) :
    calculateFrequency s =
      { s with
        FMstation :=
          fromRegister ((s.upperFrequencyByte <<< 8) + s.lowerFrequencyByte)
            s.crystalOscillatorFrequency } := rfl

/-- On tenth-of-a-MHz stations and the driver's 32768 Hz crystal, the
register computed by the source's truncating conversion is a closed natural
division. -/
theorem toRegister_tenths (n : ℕ) :
    toRegister ((n : ℚ) / 10) 32768 = (400000 * n + 900000) / 32768 := by
  unfold toRegister
  have harg : 4 * ((n : ℚ) / 10 * 1000000 + 225000) / ((32768 : ℕ) : ℚ) =
      ((400000 * n + 900000 : ℕ) : ℚ) / ((32768 : ℕ) : ℚ) := by
    push_cast; ring
  rw [harg, pyInt_eq_floor _ (by positivity), floor_natCast_div]
  exact Int.toNat_natCast _

/-- The source's ad-hoc register-to-frequency formula exactly undoes the
truncating frequency-to-register conversion at the 32768 Hz crystal: the
`-22500`/`-.2` fudge absorbs both the missing `225000` and the truncation
error, which is below 8192/400000 of a step. -/
theorem fromRegister_tenths (n : ℕ) :
    fromRegister ((400000 * n + 900000) / 32768) 32768 = (n : ℚ) / 10 := by
  set A : ℕ := 400000 * n + 900000 with hA
  set reg : ℕ := A / 32768 with hreg
  have hb1 : reg * 32768 ≤ A := Nat.div_mul_le_self A 32768
  have hb2 : A < 32768 * (reg + 1) := Nat.lt_mul_div_succ A (by norm_num)
  unfold fromRegister
  have hinner : ((reg : ℕ) : ℚ) * ((32768 : ℕ) : ℚ) / 4 - 22500 =
      ((8192 * (reg : ℤ) - 22500 : ℤ) : ℚ) := by push_cast; ring
  rw [hinner, pyInt_intCast]
  have hb1' : ((reg : ℚ)) * 32768 ≤ (A : ℚ) := by exact_mod_cast hb1
  have hb2' : (A : ℚ) < 32768 * ((reg : ℚ) + 1) := by exact_mod_cast hb2
  have hAq : (A : ℚ) = 400000 * (n : ℚ) + 900000 := by
    rw [hA]; push_cast; ring
  have hr1 : pyRound (((8192 * (reg : ℤ) - 22500 : ℤ) : ℚ) / 100000) =
      (n : ℤ) + 2 := by
    apply pyRound_eq
    · push_cast
      rw [hAq] at hb2'
      linarith
    · push_cast
      rw [hAq] at hb1'
      linarith
  rw [hr1]
  have houter : ((((n : ℤ) + 2 : ℤ) : ℚ)) / 10 - 0.2 = ((n : ℤ) : ℚ) / 10 := by
    have h02 : (0.2 : ℚ) = 2 / 10 := by norm_num
    rw [h02]; push_cast; ring
  rw [houter]
  have hx : ((n : ℤ) : ℚ) / 10 * 10 = ((n : ℤ) : ℚ) := by ring
  rw [hx, pyRound_intCast]
  push_cast; ring

/-- C4 (amended): at the crystal the driver actually configures (32768 Hz),
the implemented round trip `calculateByteFrequency` then
`calculateFrequency` recovers every tenth-of-a-MHz station exactly — in
particular within 0.1 MHz on all of [87.5, 107.9].  (At the other two
crystal frequencies the claim fails, see the counterexample.) -/
theorem frequency_roundtrip_exact_at_32768 : ∀ n : ℕ,
    (calculateFrequency (calculateByteFrequency
      { mkFields 32768 with FMstation := (n : ℚ) / 10 })).FMstation =
      (n : ℚ) / 10 := by
  intro n
  show fromRegister
      ((toRegister ((n : ℚ) / 10) 32768 >>> 8 <<< 8) +
        (toRegister ((n : ℚ) / 10) 32768 &&& 0xFF)) 32768 = (n : ℚ) / 10
  rw [shift_mask_reconstruct, toRegister_tenths, fromRegister_tenths]

set_option maxRecDepth 10000 in
unseal Rat.mul Rat.add Rat.inv Rat.sub Rat.ofScientific in
/-- C4 (counterexample): with crystal 6 500 000 Hz (and likewise
13 000 000 Hz), tuning 87.5 MHz through `calculateByteFrequency` and reading
it back through `calculateFrequency` — the claim's `fromRegister(toRegister
(f, X), X)` as implemented — yields 85.9 MHz (resp. 84.3 MHz), more than
0.1 MHz away from 87.5. -/
theorem frequency_roundtrip_fails_offband_crystals :
    (calculateFrequency (calculateByteFrequency
      { mkFields 6500000 with FMstation := 87.5 })).FMstation = 85.9 ∧
    (calculateFrequency (calculateByteFrequency
      { mkFields 13000000 with FMstation := 87.5 })).FMstation = 84.3 ∧
    ¬((87.5 : ℚ) - 85.9 ≤ 0.1) ∧ ¬((87.5 : ℚ) - 84.3 ≤ 0.1) := by
  refine ⟨by decide, by decide, by decide, by decide⟩

unseal Rat.mul Rat.add Rat.inv Rat.sub Rat.ofScientific in
/-- C3 (counterexample): at 88.1 MHz and the 32768 Hz crystal the exact
value of `4*(f*1e6+225000)/X` is 10781.982…; the source's `int(...)`
truncates it to 10781, while the claim's `round(...)` gives 10782, so the
conversion does not compute `round(4 * (f*1e6 + 225000) / X)`. -/
theorem toRegister_truncates_not_rounds :
    toRegister 88.1 32768 = 10781 ∧
    toRegisterSpecRound 88.1 32768 = 10782 ∧
    ((calculateByteFrequency { mkFields 32768 with FMstation := 88.1
      }).upperFrequencyByte <<< 8) +
      (calculateByteFrequency { mkFields 32768 with FMstation := 88.1
      }).lowerFrequencyByte = 10781 ∧
    (10781 : ℕ) ≠ 10782 := by
  refine ⟨by decide, by decide, by decide, by decide⟩

/-- C3 (amended): for every nonnegative station frequency and any crystal,
`calculateByteFrequency` computes the PLL value as the *truncation*
`int(4 * (f*1e6 + 225000) / X)` (equal to the floor on this nonnegative
range, not to `round`), stores its upper part shifted right by 8 bits and
its lower part masked with 0xFF, and the two parts reassemble to the value
exactly. -/
theorem toRegister_trunc_and_split (s : Tea5767) (h : 0 ≤ s.FMstation) :
    ((toRegister s.FMstation s.crystalOscillatorFrequency : ℤ) =
      ⌊4 * (s.FMstation * 1000000 + 225000) /
        (s.crystalOscillatorFrequency : ℚ)⌋) ∧
    (calculateByteFrequency s).upperFrequencyByte =
      toRegister s.FMstation s.crystalOscillatorFrequency >>> 8 ∧
    (calculateByteFrequency s).lowerFrequencyByte =
      toRegister s.FMstation s.crystalOscillatorFrequency &&& 0xFF ∧
    ((calculateByteFrequency s).upperFrequencyByte <<< 8) +
      (calculateByteFrequency s).lowerFrequencyByte =
      toRegister s.FMstation s.crystalOscillatorFrequency := by
  have hnum : (0 : ℚ) ≤ 4 * (s.FMstation * 1000000 + 225000) := by
    have := mul_nonneg h (by norm_num : (0 : ℚ) ≤ 1000000)
    linarith
  have harg : (0 : ℚ) ≤ 4 * (s.FMstation * 1000000 + 225000) /
      (s.crystalOscillatorFrequency : ℚ) :=
    div_nonneg hnum (Nat.cast_nonneg _)
  refine ⟨?_, rfl, rfl, shift_mask_reconstruct _⟩
  unfold toRegister
  rw [pyInt_eq_floor _ harg, Int.toNat_of_nonneg (Int.floor_nonneg.mpr harg)]

/-- C3 (witness): the amended statement at the constructor's state
(88.1 MHz, 32768 Hz crystal). -/
theorem toRegister_trunc_and_split_witness :
    ((toRegister (mkFields 32768).FMstation
        (mkFields 32768).crystalOscillatorFrequency : ℤ) =
      ⌊4 * ((mkFields 32768).FMstation * 1000000 + 225000) /
        ((mkFields 32768).crystalOscillatorFrequency : ℚ)⌋) ∧
    (calculateByteFrequency (mkFields 32768)).upperFrequencyByte =
      toRegister (mkFields 32768).FMstation
        (mkFields 32768).crystalOscillatorFrequency >>> 8 ∧
    (calculateByteFrequency (mkFields 32768)).lowerFrequencyByte =
      toRegister (mkFields 32768).FMstation
        (mkFields 32768).crystalOscillatorFrequency &&& 0xFF ∧
    ((calculateByteFrequency (mkFields 32768)).upperFrequencyByte <<< 8) +
      (calculateByteFrequency (mkFields 32768)).lowerFrequencyByte =
      toRegister (mkFields 32768).FMstation
        (mkFields 32768).crystalOscillatorFrequency :=
  toRegister_trunc_and_split (mkFields 32768) (by norm_num [mkFields])

unseal Rat.mul Rat.add Rat.inv Rat.sub Rat.ofScientific in
/-- C5 (counterexample): `toRegister` is not strictly increasing in the
station for a fixed crystal frequency: at 13 MHz (and 6.5 MHz) the registers
of 87.6 and 87.7 MHz coincide, and at 32768 Hz the registers of 90 MHz and
90.001 MHz coincide. -/
theorem toRegister_not_strictly_increasing :
    (87.6 : ℚ) < 87.7 ∧
    toRegister 87.6 13000000 = toRegister 87.7 13000000 ∧
    toRegister 87.6 6500000 = toRegister 87.7 6500000 ∧
    (90 : ℚ) < 90 + 1/1000 ∧
    toRegister 90 32768 = toRegister (90 + 1/1000) 32768 := by
  refine ⟨by decide, by decide, by decide, by decide, by decide⟩

/-- C5 (amended): at the driver's 32768 Hz crystal, `toRegister` is
strictly increasing across stations at least one scan step (0.1 MHz)
apart — in particular along the whole 0.1 MHz band grid. -/
theorem toRegister_strictMono_at_32768 (f1 f2 : ℚ) (h0 : 0 ≤ f1)
    (hstep : f1 + 1/10 ≤ f2) :
    toRegister f1 32768 < toRegister f2 32768 := by
  unfold toRegister
  have hc : ((32768 : ℕ) : ℚ) = 32768 := by norm_num
  have ha1 : (0 : ℚ) ≤ 4 * (f1 * 1000000 + 225000) / ((32768 : ℕ) : ℚ) := by
    apply div_nonneg _ (Nat.cast_nonneg _)
    have := mul_nonneg h0 (by norm_num : (0 : ℚ) ≤ 1000000)
    linarith
  have ha2 : (0 : ℚ) ≤ 4 * (f2 * 1000000 + 225000) / ((32768 : ℕ) : ℚ) := by
    apply div_nonneg _ (Nat.cast_nonneg _)
    have h0' : (0 : ℚ) ≤ f2 := by linarith
    have := mul_nonneg h0' (by norm_num : (0 : ℚ) ≤ 1000000)
    linarith
  rw [pyInt_eq_floor _ ha1, pyInt_eq_floor _ ha2]
  have hgap : 4 * (f1 * 1000000 + 225000) / ((32768 : ℕ) : ℚ) + 1 ≤
      4 * (f2 * 1000000 + 225000) / ((32768 : ℕ) : ℚ) := by
    rw [hc]
    have : 4 * (f1 * 1000000 + 225000) + 32768 ≤
        4 * (f2 * 1000000 + 225000) := by linarith
    linarith
  have hlt : ⌊4 * (f1 * 1000000 + 225000) / ((32768 : ℕ) : ℚ)⌋ <
      ⌊4 * (f2 * 1000000 + 225000) / ((32768 : ℕ) : ℚ)⌋ := by
    have h1 : ⌊4 * (f1 * 1000000 + 225000) / ((32768 : ℕ) : ℚ)⌋ + 1 =
        ⌊4 * (f1 * 1000000 + 225000) / ((32768 : ℕ) : ℚ) + 1⌋ :=
      (Int.floor_add_one _).symm
    have h2 := Int.floor_le_floor hgap
    omega
  have hpos := Int.floor_nonneg.mpr ha1
  omega

/-- C5 (witness): one concrete 0.1 MHz step, 87.5 to 87.6 MHz. -/
theorem toRegister_strictMono_at_32768_witness :
    toRegister 87.5 32768 < toRegister 87.6 32768 :=
  toRegister_strictMono_at_32768 87.5 87.6 (by norm_num) (by norm_num)

/-- C6: `tune` fails with `FrequencyOutOfBand` exactly on requests outside
[87.5, 107.9], before any transport call and without touching the
configuration (the error branch carries no state and no bytes), and
succeeds — updating the station and writing — exactly on the band;
in particular 87.4 and 108.0 fail while 87.5 and 107.9 succeed. -/
theorem tune_band_validation :
    (∀ (s : Tea5767) (f : ℚ),
      tune s f = .error .FrequencyOutOfBand ↔ f < 87.5 ∨ 107.9 < f) ∧
    (∀ (s : Tea5767) (f : ℚ),
      tune s f = .ok (writeBytes { s with FMstation := f }) ↔
        ¬(f < 87.5 ∨ 107.9 < f)) ∧
    (∀ s : Tea5767, tune s 87.4 = .error .FrequencyOutOfBand) ∧
    (∀ s : Tea5767, tune s 108.0 = .error .FrequencyOutOfBand) ∧
    (∀ s : Tea5767,
      tune s 87.5 = .ok (writeBytes { s with FMstation := 87.5 })) ∧
    (∀ s : Tea5767,
      tune s 107.9 = .ok (writeBytes { s with FMstation := 107.9 })) := by
  refine ⟨?_, ?_, ?_, ?_, ?_, ?_⟩
  · intro s f
    by_cases hc : f < 87.5 ∨ 107.9 < f <;> simp [tune, hc]
  · intro s f
    by_cases hc : f < 87.5 ∨ 107.9 < f <;> simp [tune, hc]
  · intro s
    have : (87.4 : ℚ) < 87.5 ∨ (107.9 : ℚ) < 87.4 := by norm_num
    simp [tune, this]
  · intro s
    have : (108.0 : ℚ) < 87.5 ∨ (107.9 : ℚ) < 108.0 := by norm_num
    simp [tune, this]
  · intro s
    have : ¬((87.5 : ℚ) < 87.5 ∨ (107.9 : ℚ) < 87.5) := by norm_num
    simp [tune, this]
    norm_num
  · intro s
    have : ¬((107.9 : ℚ) < 87.5 ∨ (107.9 : ℚ) < 107.9) := by norm_num
    simp [tune, this]
    norm_num

/-- C9: on a constructed `tea5767` instance the name `mute` resolves to the
integer field assigned in `__init__` (which shadows the class's `mute`
method), so calling `radio.mute()` calls an `int` and fails, while calling a
non-shadowed method such as `on` succeeds. -/
theorem mute_method_shadowed_by_field :
    pyGetattr "mute" = some (.intVal 1) ∧
    "mute" ∈ tea5767ClassMethods ∧
    pyCallSucceeds "mute" = false ∧
    pyCallSucceeds "on" = true := by
  refine ⟨by decide, by decide, by decide, by decide⟩

theorem encodeByteOneBall : ∀ m, m < 2 → ∀ sm, sm < 2 → ∀ u, u < 64 →
    (encodeBytes { mkFields 32768 with
      mute := m, searchMode := sm, upperFrequencyByte := u }).getD 0 0 =
      m * 0x80 ||| sm * 0x40 ||| u ∧
    (encodeBytes { mkFields 32768 with
      mute := m, searchMode := sm, upperFrequencyByte := u }).getD 0 0 <
      256 := by decide

theorem encodeByteThreeBall : ∀ sud, sud < 2 → ∀ ssl, ssl < 4 →
    ∀ hl, hl < 2 → ∀ mo, mo < 2 → ∀ mr, mr < 2 → ∀ ml, ml < 2 →
    ∀ sp, sp < 2 →
    (encodeBytes { mkFields 32768 with
      SUD := sud, searchStopLevel := ssl, HLSI := hl, mono := mo,
      muteRight := mr, muteLeft := ml, SWP1 := sp }).getD 2 0 =
      sud * 0x80 ||| ssl * 0x20 ||| hl * 0x10 ||| mo * 0x08 |||
        mr * 0x04 ||| ml * 0x02 ||| sp ∧
    (encodeBytes { mkFields 32768 with
      SUD := sud, searchStopLevel := ssl, HLSI := hl, mono := mo,
      muteRight := mr, muteLeft := ml, SWP1 := sp }).getD 2 0 < 256 := by
  intro sud hsud ssl hssl hl hhl mo hmo mr hmr ml hml sp hsp
  interval_cases sud <;> interval_cases ssl <;> interval_cases hl <;>
    interval_cases mo <;> interval_cases mr <;> interval_cases ml <;>
    interval_cases sp <;> exact ⟨by decide, by decide⟩

theorem encodeByteFourBall : ∀ sw2, sw2 < 2 → ∀ st, st < 2 →
    ∀ bl, bl < 2 → ∀ xt, xt < 2 → ∀ sm, sm < 2 → ∀ hc, hc < 2 →
    ∀ sn, sn < 2 → ∀ si, si < 2 →
    (encodeBytes { mkFields 32768 with
      SWP2 := sw2, standby := st, bandLimits := bl, XTAL := xt,
      softMute := sm, HCC := hc, SNC := sn, SI := si }).getD 3 0 =
      sw2 * 0x80 ||| st * 0x40 ||| bl * 0x20 ||| xt * 0x10 |||
        sm * 0x08 ||| hc * 0x04 ||| sn * 0x02 ||| si ∧
    (encodeBytes { mkFields 32768 with
      SWP2 := sw2, standby := st, bandLimits := bl, XTAL := xt,
      softMute := sm, HCC := hc, SNC := sn, SI := si }).getD 3 0 < 256 := by
  intro sw2 hsw2 st hst bl hbl xt hxt sm hsm hc hhc sn hsn si hsi
  interval_cases sw2 <;> interval_cases st <;> interval_cases bl <;>
    interval_cases xt <;> interval_cases sm <;> interval_cases hc <;>
    interval_cases sn <;> interval_cases si <;> exact ⟨by decide, by decide⟩

theorem encodeByteFiveBall : ∀ pl, pl < 2 → ∀ dt, dt < 2 →
    (encodeBytes { mkFields 32768 with PLL := pl, DTC := dt }).getD 4 0 =
      pl * 0x80 ||| dt * 0x40 ∧
    (encodeBytes { mkFields 32768 with PLL := pl, DTC := dt }).getD 4 0 <
      256 := by decide

/-- C1: for every valid configuration, `writeBytes`' packing (`encodeBytes`)
produces five independent bytes, each the OR-combination of its fields at
their documented bit positions (and hence below 256 — no bit crosses a byte
boundary); in particular, with every boolean field false and `mute = 1`,
Byte0 is 0x80, and with `mute = 1`, `searchMode = 1`,
`upperFrequencyByte = 0x12`, Byte0 is 0xD2. -/
theorem encode_packs_bit_layout :
    (∀ s : Tea5767, validConfig s →
      (encodeBytes s).length = 5 ∧
      (encodeBytes s).getD 0 0 =
        s.mute * 0x80 ||| s.searchMode * 0x40 ||| s.upperFrequencyByte ∧
      (encodeBytes s).getD 1 0 = s.lowerFrequencyByte ∧
      (encodeBytes s).getD 2 0 =
        s.SUD * 0x80 ||| s.searchStopLevel * 0x20 ||| s.HLSI * 0x10 |||
          s.mono * 0x08 ||| s.muteRight * 0x04 ||| s.muteLeft * 0x02 |||
          s.SWP1 ∧
      (encodeBytes s).getD 3 0 =
        s.SWP2 * 0x80 ||| s.standby * 0x40 ||| s.bandLimits * 0x20 |||
          s.XTAL * 0x10 ||| s.softMute * 0x08 ||| s.HCC * 0x04 |||
          s.SNC * 0x02 ||| s.SI ∧
      (encodeBytes s).getD 4 0 = s.PLL * 0x80 ||| s.DTC * 0x40 ∧
      (∀ b ∈ encodeBytes s, b < 256)) ∧
    (encodeBytes cfgAllFalseMute).getD 0 0 = 0x80 ∧
    (encodeBytes cfgMuteSearchUpper12).getD 0 0 = 0xD2 := by
  refine ⟨?_, by decide, by decide⟩
  intro s hv
  obtain ⟨h1, h2, h3, h4, h5, h6, h7, h8, h9, h10, h11, h12, h13, h14, h15,
    h16, h17, h18, h19, h20, h21⟩ := hv
  obtain ⟨e1, b1⟩ := encodeByteOneBall s.mute (by omega) s.searchMode
    (by omega) s.upperFrequencyByte (by omega)
  obtain ⟨e3, b3⟩ := encodeByteThreeBall s.SUD (by omega) s.searchStopLevel
    (by omega) s.HLSI (by omega) s.mono (by omega) s.muteRight (by omega)
    s.muteLeft (by omega) s.SWP1 (by omega)
  obtain ⟨e4, b4⟩ := encodeByteFourBall s.SWP2 (by omega) s.standby
    (by omega) s.bandLimits (by omega) s.XTAL (by omega) s.softMute
    (by omega) s.HCC (by omega) s.SNC (by omega) s.SI (by omega)
  obtain ⟨e5, b5⟩ := encodeByteFiveBall s.PLL (by omega) s.DTC (by omega)
  refine ⟨rfl, e1, rfl, e3, e4, e5, ?_⟩
  intro b hb
  simp only [encodeBytes, List.mem_cons, List.not_mem_nil, or_false] at hb
  rcases hb with rfl | rfl | rfl | rfl | rfl
  · exact b1
  · omega
  · exact b3
  · exact b4
  · exact b5

/-- C1 (witness): the general packing statement instantiated at the claim's
all-booleans-false, `mute = 1` configuration. -/
theorem encode_packs_bit_layout_witness :
    validConfig cfgAllFalseMute ∧
    ((encodeBytes cfgAllFalseMute).length = 5 ∧
      (encodeBytes cfgAllFalseMute).getD 0 0 =
        cfgAllFalseMute.mute * 0x80 ||| cfgAllFalseMute.searchMode * 0x40 |||
          cfgAllFalseMute.upperFrequencyByte ∧
      (encodeBytes cfgAllFalseMute).getD 1 0 =
        cfgAllFalseMute.lowerFrequencyByte ∧
      (encodeBytes cfgAllFalseMute).getD 2 0 =
        cfgAllFalseMute.SUD * 0x80 |||
          cfgAllFalseMute.searchStopLevel * 0x20 |||
          cfgAllFalseMute.HLSI * 0x10 ||| cfgAllFalseMute.mono * 0x08 |||
          cfgAllFalseMute.muteRight * 0x04 |||
          cfgAllFalseMute.muteLeft * 0x02 ||| cfgAllFalseMute.SWP1 ∧
      (encodeBytes cfgAllFalseMute).getD 3 0 =
        cfgAllFalseMute.SWP2 * 0x80 ||| cfgAllFalseMute.standby * 0x40 |||
          cfgAllFalseMute.bandLimits * 0x20 |||
          cfgAllFalseMute.XTAL * 0x10 ||| cfgAllFalseMute.softMute * 0x08 |||
          cfgAllFalseMute.HCC * 0x04 ||| cfgAllFalseMute.SNC * 0x02 |||
          cfgAllFalseMute.SI ∧
      (encodeBytes cfgAllFalseMute).getD 4 0 =
        cfgAllFalseMute.PLL * 0x80 ||| cfgAllFalseMute.DTC * 0x40 ∧
      (∀ b ∈ encodeBytes cfgAllFalseMute, b < 256)) :=
  ⟨by decide, encode_packs_bit_layout.1 cfgAllFalseMute (by decide)⟩

set_option maxRecDepth 100000 in
theorem decodeByte0Ball : ∀ x, x < 256 →
    (readBytesWith (mkFields 32768) ⟨x, 0, 0, 0, 0⟩).readyFlag =
      x / 128 % 2 ∧
    (readBytesWith (mkFields 32768) ⟨x, 0, 0, 0, 0⟩).bandLimitFlag =
      x / 64 % 2 ∧
    (readBytesWith (mkFields 32768) ⟨x, 0, 0, 0, 0⟩).upperFrequencyByte =
      x % 64 := by decide

set_option maxRecDepth 100000 in
theorem decodeByte2Ball : ∀ x, x < 256 →
    (readBytesWith (mkFields 32768) ⟨0, 0, x, 0, 0⟩).stereoFlag =
      x / 128 % 2 ∧
    (readBytesWith (mkFields 32768) ⟨0, 0, x, 0, 0⟩).IFcounter = x % 128 := by
  decide

set_option maxRecDepth 100000 in
theorem decodeByte3Ball : ∀ x, x < 256 →
    (readBytesWith (mkFields 32768) ⟨0, 0, 0, x, 0⟩).levelADCoutput =
      x / 16 ∧
    (readBytesWith (mkFields 32768) ⟨0, 0, 0, x, 0⟩).levelADCoutput ≤ 15 ∧
    (readBytesWith (mkFields 32768) ⟨0, 0, 0, x, 0⟩).chipID =
      x / 2 % 8 * 2 ∧
    (readBytesWith (mkFields 32768) ⟨0, 0, 0, x, 0⟩).chipID ≤ 14 := by decide

/-- C2: `readBytes` (as `readBytesWith`, the read result made explicit) is
total — every 5-byte input decodes, there is no error path — and extracts
exactly the documented fields: `ready` from bit 7 and `bandLimit` from bit 6
of Byte0, `upperFreq` from its low six bits, `lowerFreq` from all of Byte1,
`stereo` from bit 7 and `ifCounter` from the low seven bits of Byte2,
`signalLevel` (a value in 0..15) from bits 7..4 of Byte3 and `chipId` (a
small even integer, kept in place by the 0x0E mask) from bits 3..1 of
Byte3. -/
theorem decode_extracts_status_fields (r : Bytes5) (s : Tea5767)
    (h0 : r.b0 < 256) (h2 : r.b2 < 256) (h3 : r.b3 < 256) :
    (readBytesWith s r).readyFlag = r.b0 / 128 % 2 ∧
    (readBytesWith s r).bandLimitFlag = r.b0 / 64 % 2 ∧
    (readBytesWith s r).upperFrequencyByte = r.b0 % 64 ∧
    (readBytesWith s r).lowerFrequencyByte = r.b1 ∧
    (readBytesWith s r).stereoFlag = r.b2 / 128 % 2 ∧
    (readBytesWith s r).IFcounter = r.b2 % 128 ∧
    (readBytesWith s r).levelADCoutput = r.b3 / 16 ∧
    (readBytesWith s r).levelADCoutput ≤ 15 ∧
    (readBytesWith s r).chipID = r.b3 / 2 % 8 * 2 ∧
    (readBytesWith s r).chipID ≤ 14 := by
  obtain ⟨d0a, d0b, d0c⟩ := decodeByte0Ball r.b0 h0
  obtain ⟨d2a, d2b⟩ := decodeByte2Ball r.b2 h2
  obtain ⟨d3a, d3b, d3c, d3d⟩ := decodeByte3Ball r.b3 h3
  exact ⟨d0a, d0b, d0c, rfl, d2a, d2b, d3a, d3b, d3c, d3d⟩

/-- C2 (witness): decoding the concrete read `[0xC5, 0x12, 0x93, 0x5E, 0]`. -/
theorem decode_extracts_status_fields_witness :
    (readBytesWith (mkFields 32768) ⟨0xC5, 0x12, 0x93, 0x5E, 0⟩).readyFlag =
      0xC5 / 128 % 2 ∧
    (readBytesWith (mkFields 32768)
      ⟨0xC5, 0x12, 0x93, 0x5E, 0⟩).bandLimitFlag = 0xC5 / 64 % 2 ∧
    (readBytesWith (mkFields 32768)
      ⟨0xC5, 0x12, 0x93, 0x5E, 0⟩).upperFrequencyByte = 0xC5 % 64 ∧
    (readBytesWith (mkFields 32768)
      ⟨0xC5, 0x12, 0x93, 0x5E, 0⟩).lowerFrequencyByte = 0x12 ∧
    (readBytesWith (mkFields 32768) ⟨0xC5, 0x12, 0x93, 0x5E, 0⟩).stereoFlag =
      0x93 / 128 % 2 ∧
    (readBytesWith (mkFields 32768) ⟨0xC5, 0x12, 0x93, 0x5E, 0⟩).IFcounter =
      0x93 % 128 ∧
    (readBytesWith (mkFields 32768)
      ⟨0xC5, 0x12, 0x93, 0x5E, 0⟩).levelADCoutput = 0x5E / 16 ∧
    (readBytesWith (mkFields 32768)
      ⟨0xC5, 0x12, 0x93, 0x5E, 0⟩).levelADCoutput ≤ 15 ∧
    (readBytesWith (mkFields 32768) ⟨0xC5, 0x12, 0x93, 0x5E, 0⟩).chipID =
      0x5E / 2 % 8 * 2 ∧
    (readBytesWith (mkFields 32768) ⟨0xC5, 0x12, 0x93, 0x5E, 0⟩).chipID ≤
      14 :=
  decode_extracts_status_fields ⟨0xC5, 0x12, 0x93, 0x5E, 0⟩ (mkFields 32768)
    (by decide) (by decide) (by decide)

set_option maxRecDepth 100000 in
unseal Rat.mul Rat.add Rat.inv Rat.sub Rat.ofScientific in
/-- C7: one step of the hardware-search polling loop continues only while
`readyFlag` is 0 and the station decoded from the read stays inside
[87.5, 107.9]; when the decoded station runs past a band edge the loop
clears `searchMode`, writes, and returns the not-found result `false`; when
`readyFlag` is set it clears `searchMode`, unmutes, writes, and returns
`true` with the found station in the final state.  Concretely, against a
simulated transport that never reports `ready`, `search(Up)` from 107.8 MHz
needs exactly one iteration of fuel for any fuel budget — it never loops —
and returns not-found with `searchMode` cleared, `mute` still set, and
exactly two writes (the arming write and the exit write). -/
theorem search_loop_band_exit :
    (∀ (device : ℕ → Bytes5) (writes : List (List ℕ)) (k fuel : ℕ)
        (s : Tea5767), s.readyFlag ≠ 0 →
      searchLoop device (fuel + 1) k s writes =
        some ((writeBytes { s with searchMode := 0, mute := 0 }).1, true,
          writes ++ [(writeBytes { s with searchMode := 0, mute := 0 }).2])) ∧
    (∀ (device : ℕ → Bytes5) (writes : List (List ℕ)) (k fuel : ℕ)
        (s : Tea5767), s.readyFlag = 0 →
      ((readBytesWith s (device k)).FMstation < 87.5 ∨
        107.9 < (readBytesWith s (device k)).FMstation) →
      searchLoop device (fuel + 1) k s writes =
        some ((writeBytes
            { readBytesWith s (device k) with searchMode := 0 }).1, false,
          writes ++ [(writeBytes
            { readBytesWith s (device k) with searchMode := 0 }).2])) ∧
    (∀ (device : ℕ → Bytes5) (writes : List (List ℕ)) (k fuel : ℕ)
        (s : Tea5767), s.readyFlag = 0 →
      ¬((readBytesWith s (device k)).FMstation < 87.5 ∨
        107.9 < (readBytesWith s (device k)).FMstation) →
      searchLoop device (fuel + 1) k s writes =
        searchLoop device fuel (k + 1) (readBytesWith s (device k)) writes) ∧
    (∀ fuel : ℕ, search silentDevice (fuel + 1) 1 searchStart1078 =
      search silentDevice 1 1 searchStart1078) ∧
    ((search silentDevice 1 1 searchStart1078).map
        (fun r => (r.2.1, r.1.searchMode, r.1.mute, r.2.2.length)) =
      some (false, 0, 1, 2)) := by
  refine ⟨?_, ?_, ?_, ?_, by decide⟩
  · intro device writes k fuel s h
    simp only [searchLoop]
    rw [if_pos h]
  · intro device writes k fuel s h hband
    simp only [searchLoop]
    rw [if_neg (by simp [h]), if_pos hband]
  · intro device writes k fuel s h hband
    simp only [searchLoop]
    rw [if_neg (by simp [h]), if_neg hband]
  · intro fuel
    rfl

set_option maxRecDepth 100000 in
unseal Rat.mul Rat.add Rat.inv Rat.sub Rat.ofScientific in
/-- C10: when the stepped station first crosses a band edge, the scan loop
resets the station to the opposite edge value — 108 after a downward step
below 87.5, and 87.5 after an upward step past 107.9 — sets the exit flag,
and still executes one final full tune-write / read / threshold-record pass
at the reset station before returning (`scanIterationAt`); concretely, a
downward scan's last write tunes the device to 108 MHz, which lies outside
[87.5, 107.9]. -/
theorem scan_extra_iteration_after_band_reset :
    (∀ (dev : List ℕ → Bytes5) (fuel : ℕ) (s : Tea5767) (fadd : ℚ)
        (stations : List (ℚ × ℕ × ℕ)) (writes : List (ℚ × List ℕ)),
      s.FMstation + fadd < 87.5 →
      scanLoop dev (fuel + 1) s fadd stations writes =
        some (scanIterationAt dev s 108 stations writes)) ∧
    (∀ (dev : List ℕ → Bytes5) (fuel : ℕ) (s : Tea5767) (fadd : ℚ)
        (stations : List (ℚ × ℕ × ℕ)) (writes : List (ℚ × List ℕ)),
      ¬(s.FMstation + fadd < 87.5) → 107.9 < s.FMstation + fadd →
      scanLoop dev (fuel + 1) s fadd stations writes =
        some (scanIterationAt dev s 87.5 stations writes)) ∧
    ((scan scanDevice 205 0 freshRadio).map
        (fun r => r.writes.getLast?.map Prod.fst) = some (some 108)) ∧
    ¬((87.5 : ℚ) ≤ 108 ∧ (108 : ℚ) ≤ 107.9) := by
  refine ⟨?_, ?_, ?_, by norm_num⟩
  · intro dev fuel s fadd stations writes h
    have h' : ({ s with FMstation := s.FMstation + fadd } :
        Tea5767).FMstation < 87.5 := h
    simp only [scanLoop, scanIterationAt]
    rw [if_pos h']
    rfl
  · intro dev fuel s fadd stations writes h1 h2
    have h1' : ¬({ s with FMstation := s.FMstation + fadd } :
        Tea5767).FMstation < 87.5 := h1
    have h2' : (107.9 : ℚ) < ({ s with FMstation := s.FMstation + fadd } :
        Tea5767).FMstation := h2
    simp only [scanLoop, scanIterationAt]
    rw [if_neg h1', if_pos h2']
    rfl
  · decide

set_option maxRecDepth 100000 in
unseal Rat.mul Rat.add Rat.inv Rat.sub Rat.ofScientific in
/-- C10 (witness): a downward step from 87.4 MHz crosses the lower edge, and
the loop answers with the full extra iteration at the reset value 108. -/
theorem scan_extra_iteration_after_band_reset_witness :
    scanLoop scanDevice 1 { mkFields 32768 with FMstation := 87.4 }
        (-0.1) [] [] =
      some (scanIterationAt scanDevice
        { mkFields 32768 with FMstation := 87.4 } 108 [] []) :=
  scan_extra_iteration_after_band_reset.1 scanDevice 0
    { mkFields 32768 with FMstation := 87.4 } (-0.1) [] [] (by decide)

set_option maxRecDepth 100000 in
unseal Rat.mul Rat.add Rat.inv Rat.sub Rat.ofScientific in
/-- C8: against `scanDevice` — a simulated transport whose `levelADCoutput`
is 5 exactly at the registers of 90.0 and 100.0 MHz and 0 elsewhere — the
upward scan of a fresh radio needs exactly one full band traversal (205 loop
iterations: 87.6 … 107.9 in 0.1 MHz steps plus the band-reset iteration at
87.5; with only 204 iterations of fuel it has not returned), terminates
then, and records exactly the two strong stations, in ascending frequency
order, each with the threshold-exceeding level 5. -/
theorem scan_coverage_simulated :
    scan scanDevice 204 1 freshRadio = none ∧
    (scan scanDevice 205 1 freshRadio).map ScanResult.stations =
      some [(90, 0, 5), (100, 0, 5)] := by
  refine ⟨by decide, by decide⟩

set_option maxRecDepth 100000 in
unseal Rat.mul Rat.add Rat.inv Rat.sub Rat.ofScientific in
/-- C7 (witness): the ready-exit step at a state with `readyFlag = 1`. -/
theorem search_loop_band_exit_witness :
    searchLoop silentDevice 1 0 { mkFields 32768 with readyFlag := 1 } [] =
      some ((writeBytes { { mkFields 32768 with readyFlag := 1 } with
          searchMode := 0, mute := 0 }).1, true,
        [] ++ [(writeBytes { { mkFields 32768 with readyFlag := 1 } with
          searchMode := 0, mute := 0 }).2]) :=
  search_loop_band_exit.1 silentDevice [] 0 0
    { mkFields 32768 with readyFlag := 1 } (by decide)
